import Mathlib

/-
Verification of the global hotkey / key-chord detection core of the
whisper-writer repository, shallowly embedded in Lean 4.

Embedded sources:
  * `src/key_chord.py` — the `KeyChord` matcher (`update`, `is_active`);
  * `src/key_listener.py` — the `KeyListener` orchestrator (backend
    selection, chord parsing, edge-triggered callback dispatch);
  * `src/input_backend/pynput_backend.py` — the user-space-hook backend
    (native-event translation and sink invocation).

Python sets of keys are modelled as `Finset`, Python lists as `List`.
Machinery that only touches native OS resources (thread start/stop,
logging output) carries no key state and is modelled as the identity on
the embedded state; where a log message matters to a claim (the fallback
notice of backend selection, the unknown-token report of the parser) the
embedding returns it as data.  A callback is modelled as an opaque label
paired with a flag saying whether invoking it raises an exception, and
"invoking the registered callbacks" is modelled as the list of labels
invoked, in order.
-/

/-- Modelled from the spec: the repository imports `input_events.InputEvent`,
but `input_events.py` is not under `src/`.  The spec describes InputEvent as
"a two-valued kind: KEY_PRESS, KEY_RELEASE". -/
inductive InputEvent where
  | KEY_PRESS
  | KEY_RELEASE
deriving DecidableEq

/-- Modelled from the spec: the repository imports `input_events.KeyCode`, but
`input_events.py` is not under `src/`.  The spec describes KeyCode as "an
exhaustive closed enumeration of logical keys"; the member names below are
exactly those referenced by the sources present (`key_listener.py` and
`pynput_backend.py`). -/
inductive KeyCode where
  | CTRL_LEFT
  | CTRL_RIGHT
  | SHIFT_LEFT
  | SHIFT_RIGHT
  | ALT_LEFT
  | ALT_RIGHT
  | META_LEFT
  | META_RIGHT
  | F1
  | F2
  | F3
  | F4
  | F5
  | F6
  | F7
  | F8
  | F9
  | F10
  | F11
  | F12
  | F13
  | F14
  | F15
  | F16
  | F17
  | F18
  | F19
  | F20
  | ONE
  | TWO
  | THREE
  | FOUR
  | FIVE
  | SIX
  | SEVEN
  | EIGHT
  | NINE
  | ZERO
  | A
  | B
  | C
  | D
  | E
  | F
  | G
  | H
  | I
  | J
  | K
  | L
  | M
  | N
  | O
  | P
  | Q
  | R
  | S
  | T
  | U
  | V
  | W
  | X
  | Y
  | Z
  | SPACE
  | ENTER
  | TAB
  | BACKSPACE
  | ESC
  | INSERT
  | DELETE
  | HOME
  | END
  | PAGE_UP
  | PAGE_DOWN
  | CAPS_LOCK
  | NUM_LOCK
  | SCROLL_LOCK
  | PAUSE
  | PRINT_SCREEN
  | UP
  | DOWN
  | LEFT
  | RIGHT
  | NUMPAD_0
  | NUMPAD_1
  | NUMPAD_2
  | NUMPAD_3
  | NUMPAD_4
  | NUMPAD_5
  | NUMPAD_6
  | NUMPAD_7
  | NUMPAD_8
  | NUMPAD_9
  | NUMPAD_ADD
  | NUMPAD_SUBTRACT
  | NUMPAD_MULTIPLY
  | NUMPAD_DIVIDE
  | NUMPAD_DECIMAL
  | MINUS
  | EQUALS
  | LEFT_BRACKET
  | RIGHT_BRACKET
  | SEMICOLON
  | QUOTE
  | BACKQUOTE
  | BACKSLASH
  | COMMA
  | PERIOD
  | SLASH
  | MUTE
  | VOLUME_DOWN
  | VOLUME_UP
  | PLAY_PAUSE
  | NEXT_TRACK
  | PREV_TRACK
  | MOUSE_LEFT
  | MOUSE_RIGHT
  | MOUSE_MIDDLE
deriving DecidableEq

/-- Modelled from the spec: Python `KeyCode[name]` enum lookup by member name,
used by `parse_key_combination`; returns `none` where the Python lookup raises
`KeyError` (which the caller catches). -/
def KeyCode.ofName (s : String) : Option KeyCode :=
  if s = "CTRL_LEFT" then some .CTRL_LEFT
  else if s = "CTRL_RIGHT" then some .CTRL_RIGHT
  else if s = "SHIFT_LEFT" then some .SHIFT_LEFT
  else if s = "SHIFT_RIGHT" then some .SHIFT_RIGHT
  else if s = "ALT_LEFT" then some .ALT_LEFT
  else if s = "ALT_RIGHT" then some .ALT_RIGHT
  else if s = "META_LEFT" then some .META_LEFT
  else if s = "META_RIGHT" then some .META_RIGHT
  else if s = "F1" then some .F1
  else if s = "F2" then some .F2
  else if s = "F3" then some .F3
  else if s = "F4" then some .F4
  else if s = "F5" then some .F5
  else if s = "F6" then some .F6
  else if s = "F7" then some .F7
  else if s = "F8" then some .F8
  else if s = "F9" then some .F9
  else if s = "F10" then some .F10
  else if s = "F11" then some .F11
  else if s = "F12" then some .F12
  else if s = "F13" then some .F13
  else if s = "F14" then some .F14
  else if s = "F15" then some .F15
  else if s = "F16" then some .F16
  else if s = "F17" then some .F17
  else if s = "F18" then some .F18
  else if s = "F19" then some .F19
  else if s = "F20" then some .F20
  else if s = "ONE" then some .ONE
  else if s = "TWO" then some .TWO
  else if s = "THREE" then some .THREE
  else if s = "FOUR" then some .FOUR
  else if s = "FIVE" then some .FIVE
  else if s = "SIX" then some .SIX
  else if s = "SEVEN" then some .SEVEN
  else if s = "EIGHT" then some .EIGHT
  else if s = "NINE" then some .NINE
  else if s = "ZERO" then some .ZERO
  else if s = "A" then some .A
  else if s = "B" then some .B
  else if s = "C" then some .C
  else if s = "D" then some .D
  else if s = "E" then some .E
  else if s = "F" then some .F
  else if s = "G" then some .G
  else if s = "H" then some .H
  else if s = "I" then some .I
  else if s = "J" then some .J
  else if s = "K" then some .K
  else if s = "L" then some .L
  else if s = "M" then some .M
  else if s = "N" then some .N
  else if s = "O" then some .O
  else if s = "P" then some .P
  else if s = "Q" then some .Q
  else if s = "R" then some .R
  else if s = "S" then some .S
  else if s = "T" then some .T
  else if s = "U" then some .U
  else if s = "V" then some .V
  else if s = "W" then some .W
  else if s = "X" then some .X
  else if s = "Y" then some .Y
  else if s = "Z" then some .Z
  else if s = "SPACE" then some .SPACE
  else if s = "ENTER" then some .ENTER
  else if s = "TAB" then some .TAB
  else if s = "BACKSPACE" then some .BACKSPACE
  else if s = "ESC" then some .ESC
  else if s = "INSERT" then some .INSERT
  else if s = "DELETE" then some .DELETE
  else if s = "HOME" then some .HOME
  else if s = "END" then some .END
  else if s = "PAGE_UP" then some .PAGE_UP
  else if s = "PAGE_DOWN" then some .PAGE_DOWN
  else if s = "CAPS_LOCK" then some .CAPS_LOCK
  else if s = "NUM_LOCK" then some .NUM_LOCK
  else if s = "SCROLL_LOCK" then some .SCROLL_LOCK
  else if s = "PAUSE" then some .PAUSE
  else if s = "PRINT_SCREEN" then some .PRINT_SCREEN
  else if s = "UP" then some .UP
  else if s = "DOWN" then some .DOWN
  else if s = "LEFT" then some .LEFT
  else if s = "RIGHT" then some .RIGHT
  else if s = "NUMPAD_0" then some .NUMPAD_0
  else if s = "NUMPAD_1" then some .NUMPAD_1
  else if s = "NUMPAD_2" then some .NUMPAD_2
  else if s = "NUMPAD_3" then some .NUMPAD_3
  else if s = "NUMPAD_4" then some .NUMPAD_4
  else if s = "NUMPAD_5" then some .NUMPAD_5
  else if s = "NUMPAD_6" then some .NUMPAD_6
  else if s = "NUMPAD_7" then some .NUMPAD_7
  else if s = "NUMPAD_8" then some .NUMPAD_8
  else if s = "NUMPAD_9" then some .NUMPAD_9
  else if s = "NUMPAD_ADD" then some .NUMPAD_ADD
  else if s = "NUMPAD_SUBTRACT" then some .NUMPAD_SUBTRACT
  else if s = "NUMPAD_MULTIPLY" then some .NUMPAD_MULTIPLY
  else if s = "NUMPAD_DIVIDE" then some .NUMPAD_DIVIDE
  else if s = "NUMPAD_DECIMAL" then some .NUMPAD_DECIMAL
  else if s = "MINUS" then some .MINUS
  else if s = "EQUALS" then some .EQUALS
  else if s = "LEFT_BRACKET" then some .LEFT_BRACKET
  else if s = "RIGHT_BRACKET" then some .RIGHT_BRACKET
  else if s = "SEMICOLON" then some .SEMICOLON
  else if s = "QUOTE" then some .QUOTE
  else if s = "BACKQUOTE" then some .BACKQUOTE
  else if s = "BACKSLASH" then some .BACKSLASH
  else if s = "COMMA" then some .COMMA
  else if s = "PERIOD" then some .PERIOD
  else if s = "SLASH" then some .SLASH
  else if s = "MUTE" then some .MUTE
  else if s = "VOLUME_DOWN" then some .VOLUME_DOWN
  else if s = "VOLUME_UP" then some .VOLUME_UP
  else if s = "PLAY_PAUSE" then some .PLAY_PAUSE
  else if s = "NEXT_TRACK" then some .NEXT_TRACK
  else if s = "PREV_TRACK" then some .PREV_TRACK
  else if s = "MOUSE_LEFT" then some .MOUSE_LEFT
  else if s = "MOUSE_RIGHT" then some .MOUSE_RIGHT
  else if s = "MOUSE_MIDDLE" then some .MOUSE_MIDDLE
  else none


/-- An element of a chord specification: in the source, elements of
`KeyChord.keys` are either a `KeyCode` or a `frozenset[KeyCode]`
(an equivalence class). -/
inductive ChordKey (α : Type) where
  | single : α → ChordKey α
  | cls : Finset α → ChordKey α
deriving DecidableEq

/-- The state of `KeyChord` (`src/key_chord.py`): the chord specification
`keys` and the mutable set of currently pressed keys. -/
structure KeyChord (α : Type) where
  keys : Finset (ChordKey α)
  pressed_keys : Finset α
deriving DecidableEq

/-- Embedding of `KeyChord.__init__`: the pressed-key set starts empty. -/
def KeyChord.init {α : Type} (keys : Finset (ChordKey α)) : KeyChord α :=
  { keys := keys, pressed_keys := ∅ }

/-- The per-element check of the loop in `KeyChord.is_active`: a single key
must be in the pressed set; for a frozenset, some member must be. -/
def ChordKey.satisfied {α : Type} [DecidableEq α] (pressed : Finset α) : ChordKey α → Prop
  | .single k => k ∈ pressed
  | .cls s => ∃ k ∈ s, k ∈ pressed

instance {α : Type} [DecidableEq α] (pressed : Finset α) :
    (e : ChordKey α) → Decidable (ChordKey.satisfied pressed e)
  | .single k => inferInstanceAs (Decidable (k ∈ pressed))
  | .cls s => inferInstanceAs (Decidable (∃ k ∈ s, k ∈ pressed))

/-- Embedding of `KeyChord.is_active` (`src/key_chord.py` lines 30-41): every element of the
specification must be satisfied, and additionally the number of pressed keys
must equal the number of specification elements
(`len(self.pressed_keys) == len(self.keys)`).  The `try/except` of the source
cannot fire for set membership and size of hashable keys and is dropped. -/
def KeyChord.is_active {α : Type} [DecidableEq α] (c : KeyChord α) : Bool :=
  decide ((∀ e ∈ c.keys, ChordKey.satisfied c.pressed_keys e) ∧
    c.pressed_keys.card = c.keys.card)

/-- Embedding of `KeyChord.update` (`src/key_chord.py` lines 13-28): a press adds the key to
the pressed set, a release discards it; the new activity is recomputed and
returned.  The state is threaded explicitly (the Python method mutates
`self`). -/
def KeyChord.update {α : Type} [DecidableEq α] (c : KeyChord α) (key : α)
    (event_type : InputEvent) : KeyChord α × Bool :=
  let c2 : KeyChord α :=
    match event_type with
    | .KEY_PRESS => { c with pressed_keys := insert key c.pressed_keys }
    | .KEY_RELEASE => { c with pressed_keys := c.pressed_keys.erase key }
  (c2, c2.is_active)

/-- Delivering a sequence of events to a `KeyChord`, in order. -/
def KeyChord.apply_events {α : Type} [DecidableEq α] (c : KeyChord α)
    (events : List (α × InputEvent)) : KeyChord α :=
  events.foldl (fun c e => (c.update e.1 e.2).1) c

/-- The two backend variants that `KeyListener.initialize_backends` knows:
`EvdevBackend` (kernel-device) before `PynputBackend` (user-space hook).
`evdev_backend.py` is not under `src/`; only the class identity and its
priority position matter to the listener logic embedded here. -/
inductive BackendClass where
  | evdev
  | pynput
deriving DecidableEq

/-- Embedding of `KeyListener.initialize_backends`: instantiate the backend classes in the
fixed priority order `[EvdevBackend, PynputBackend]`, keeping those whose
availability probe passes. -/
def initialize_backends (is_available : BackendClass → Bool) : List BackendClass :=
  [BackendClass.evdev, BackendClass.pynput].filter is_available

/-- The `backend_map` dictionary of `KeyListener.select_backend_from_config`. -/
def backend_map (preferred : String) : Option BackendClass :=
  if preferred = "evdev" then some BackendClass.evdev
  else if preferred = "pynput" then some BackendClass.pynput
  else none

/-- The state of `KeyListener` (`src/key_listener.py`).  A callback is an
opaque label `β` paired with a flag saying whether invoking it raises an
exception. -/
structure KeyListener (α β : Type) where
  backends : List BackendClass
  active_backend : Option BackendClass
  key_chord : Option (KeyChord α)
  on_activate_callbacks : List (β × Bool)
  on_deactivate_callbacks : List (β × Bool)
deriving DecidableEq

/-- Embedding of `KeyListener._trigger_callbacks`: invoke each callback of the list, in
order, with no `try/except` around the call — returns the labels invoked and
whether an exception escaped (the first raising callback is invoked, its
exception propagates, and the rest of the list is not reached). -/
def trigger_callbacks {β : Type} : List (β × Bool) → List β × Bool
  | [] => ([], false)
  | (cb, raises) :: rest =>
    if raises then ([cb], true)
    else
      let r := trigger_callbacks rest
      (cb :: r.1, r.2)

/-- Embedding of `KeyListener.on_input_event` (`src/key_listener.py` lines 126-143): return
unchanged when no chord or no active backend is set; otherwise read
`was_active`, feed the event to the chord, and on a rising edge dispatch the
`on_activate` list, on a falling edge the `on_deactivate` list, otherwise
nothing.  Result: the new listener state, the callback labels invoked in
order, and whether the `except` clause of the method caught an exception
propagating out of `_trigger_callbacks`. -/
def KeyListener.on_input_event {α β : Type} [DecidableEq α] (l : KeyListener α β)
    (event : α × InputEvent) : KeyListener α β × List β × Bool :=
  match l.key_chord, l.active_backend with
  | some chord, some _ =>
    let was_active := chord.is_active
    let r := chord.update event.1 event.2
    let l2 := { l with key_chord := some r.1 }
    if !was_active && r.2 then
      let t := trigger_callbacks l.on_activate_callbacks
      (l2, t.1, t.2)
    else if was_active && !r.2 then
      let t := trigger_callbacks l.on_deactivate_callbacks
      (l2, t.1, t.2)
    else
      (l2, [], false)
  | _, _ => (l, [], false)

/-- Embedding of `KeyListener.set_activation_keys`: replace the chord matcher with a fresh
`KeyChord` (empty pressed set). -/
def KeyListener.set_activation_keys {α β : Type} (l : KeyListener α β)
    (keys : Finset (ChordKey α)) : KeyListener α β :=
  { l with key_chord := some (KeyChord.init keys) }

/-- Embedding of `KeyListener.set_active_backend` (`src/key_listener.py` lines 73-82): find
the first instantiated backend of the requested class; if found, stop the old
backend, make the found one active and start it (`stop`/`start` touch only
native capture resources, no key state); if not found raise `ValueError`. -/
def KeyListener.set_active_backend {α β : Type} (l : KeyListener α β)
    (backend_class : BackendClass) : Except String (KeyListener α β) :=
  match l.backends.find? (fun b => b = backend_class) with
  | some b => Except.ok { l with active_backend := some b }
  | none => Except.error "Backend is not available"

/-- Embedding of `KeyListener.select_active_backend`: with no available backend raise
`RuntimeError`, otherwise make the first backend of the registry active. -/
def KeyListener.select_active_backend {α β : Type} (l : KeyListener α β) :
    Except String (KeyListener α β) :=
  match l.backends with
  | [] => Except.error "No supported input backend found"
  | b :: _ => Except.ok { l with active_backend := some b }

/-- Embedding of `KeyListener.select_backend_from_config` (`src/key_listener.py` lines
39-65).  The returned flag records whether the fallback notice
(`logging.warning`) was emitted: `true` exactly when the preferred value named
an unavailable or unknown backend and automatic selection was applied
instead. -/
def KeyListener.select_backend_from_config {α β : Type} (l : KeyListener α β)
    (preferred : String) : Except String (KeyListener α β × Bool) :=
  if preferred = "auto" then
    (l.select_active_backend).map (fun l2 => (l2, false))
  else
    match backend_map preferred with
    | some cls =>
      match l.set_active_backend cls with
      | Except.ok l2 => Except.ok (l2, false)
      | Except.error _ => (l.select_active_backend).map (fun l2 => (l2, true))
    | none => (l.select_active_backend).map (fun l2 => (l2, true))

/-- Embedding of `KeyListener.update_backend`: rerun `select_backend_from_config`. -/
def KeyListener.update_backend {α β : Type} (l : KeyListener α β)
    (preferred : String) : Except String (KeyListener α β × Bool) :=
  l.select_backend_from_config preferred

/-- The `key_map` dictionary of `KeyListener.parse_key_combination`: the four
modifier tokens and their left/right equivalence classes. -/
def modifier_map : List (String × Finset KeyCode) :=
  [("CTRL", {KeyCode.CTRL_LEFT, KeyCode.CTRL_RIGHT}),
   ("SHIFT", {KeyCode.SHIFT_LEFT, KeyCode.SHIFT_RIGHT}),
   ("ALT", {KeyCode.ALT_LEFT, KeyCode.ALT_RIGHT}),
   ("META", {KeyCode.META_LEFT, KeyCode.META_RIGHT})]

/-- Python `str.upper()` on the character sequence of a string (ASCII-level
uppercasing, as needed by the parser tokens). -/
def py_upper (s : String) : String :=
  String.mk (s.data.map Char.toUpper)

/-- Splitting a character sequence on the `+` delimiter, as Python
`str.split(sep)`: every separator occurrence cuts, empty pieces are kept. -/
def py_split_plus_aux (cur : List Char) : List Char → List (List Char)
  | [] => [cur.reverse]
  | c :: rest =>
    if c = Char.ofNat 43 then cur.reverse :: py_split_plus_aux [] rest
    else py_split_plus_aux (c :: cur) rest

/-- Python `combination_string.split(chr(43))` (split on the plus sign). -/
def py_split_plus (s : String) : List String :=
  (py_split_plus_aux [] s.data).map String.mk

/-- Python `str.strip()`: remove leading and trailing whitespace. -/
def py_strip (s : String) : String :=
  String.mk (((s.data.dropWhile Char.isWhitespace).reverse.dropWhile
    Char.isWhitespace).reverse)

/-- The token list of `parse_key_combination`: uppercase the whole string,
split on the `+` delimiter, strip each token. -/
def parse_tokens (combination_string : String) : List String :=
  (py_split_plus (py_upper combination_string)).map py_strip

/-- One loop iteration of `parse_key_combination`: a modifier token adds its
equivalence class, a token naming a `KeyCode` member adds that single key, an
unknown token is reported (collected here) and skipped. -/
def parse_step (acc : Finset (ChordKey KeyCode) × List String) (key : String) :
    Finset (ChordKey KeyCode) × List String :=
  match (modifier_map.lookup key : Option (Finset KeyCode)) with
  | some s => (insert (ChordKey.cls s) acc.1, acc.2)
  | none =>
    match KeyCode.ofName key with
    | some keycode => (insert (ChordKey.single keycode) acc.1, acc.2)
    | none => (acc.1, acc.2 ++ [key])

/-- Embedding of `KeyListener.parse_key_combination` (`src/key_listener.py` lines 102-121):
fold the loop over the tokens, starting from the empty set.  Returns the
parsed specification together with the list of unknown tokens reported by the
`print` of the `except KeyError` branch. -/
def parse_key_combination (combination_string : String) :
    Finset (ChordKey KeyCode) × List String :=
  (parse_tokens combination_string).foldl parse_step (∅, [])

/-- The `pynput.keyboard.Key` special-key members that occur in the source key
map of `PynputBackend._create_key_map`. -/
inductive PynputSpecialKey where
  | ctrl_l
  | ctrl_r
  | shift_l
  | shift_r
  | alt_l
  | alt_r
  | cmd_l
  | cmd_r
  | f1
  | f2
  | f3
  | f4
  | f5
  | f6
  | f7
  | f8
  | f9
  | f10
  | f11
  | f12
  | f13
  | f14
  | f15
  | f16
  | f17
  | f18
  | f19
  | f20
  | space
  | enter
  | tab
  | backspace
  | esc
  | insert
  | delete
  | home
  | end_
  | page_up
  | page_down
  | caps_lock
  | num_lock
  | scroll_lock
  | pause
  | print_screen
  | up
  | down
  | left
  | right
  | media_volume_mute
  | media_volume_down
  | media_volume_up
  | media_play_pause
  | media_next
  | media_previous
deriving DecidableEq

/-- Mouse buttons of `pynput.mouse.Button`: the three that occur in the source
key map, plus the side buttons `x1`/`x2` that pynput reports on some platforms
but that the source key map does not contain. -/
inductive PynputMouseButton where
  | left
  | right
  | middle
  | x1
  | x2
deriving DecidableEq

/-- A key of the native key map of `PynputBackend._create_key_map`: a
`keyboard.Key` member, a `keyboard.KeyCode.from_char` value, a
`keyboard.KeyCode.from_vk` value, or a `mouse.Button` member. -/
inductive PynputMapKey where
  | special : PynputSpecialKey → PynputMapKey
  | fromChar : Char → PynputMapKey
  | fromVk : Nat → PynputMapKey
  | button : PynputMouseButton → PynputMapKey
deriving DecidableEq

/-- The special-key entries of the key map built by
`PynputBackend._create_key_map`. -/
def pynput_special_map (k : PynputSpecialKey) : KeyCode :=
  match k with
  | .ctrl_l => .CTRL_LEFT
  | .ctrl_r => .CTRL_RIGHT
  | .shift_l => .SHIFT_LEFT
  | .shift_r => .SHIFT_RIGHT
  | .alt_l => .ALT_LEFT
  | .alt_r => .ALT_RIGHT
  | .cmd_l => .META_LEFT
  | .cmd_r => .META_RIGHT
  | .f1 => .F1
  | .f2 => .F2
  | .f3 => .F3
  | .f4 => .F4
  | .f5 => .F5
  | .f6 => .F6
  | .f7 => .F7
  | .f8 => .F8
  | .f9 => .F9
  | .f10 => .F10
  | .f11 => .F11
  | .f12 => .F12
  | .f13 => .F13
  | .f14 => .F14
  | .f15 => .F15
  | .f16 => .F16
  | .f17 => .F17
  | .f18 => .F18
  | .f19 => .F19
  | .f20 => .F20
  | .space => .SPACE
  | .enter => .ENTER
  | .tab => .TAB
  | .backspace => .BACKSPACE
  | .esc => .ESC
  | .insert => .INSERT
  | .delete => .DELETE
  | .home => .HOME
  | .end_ => .END
  | .page_up => .PAGE_UP
  | .page_down => .PAGE_DOWN
  | .caps_lock => .CAPS_LOCK
  | .num_lock => .NUM_LOCK
  | .scroll_lock => .SCROLL_LOCK
  | .pause => .PAUSE
  | .print_screen => .PRINT_SCREEN
  | .up => .UP
  | .down => .DOWN
  | .left => .LEFT
  | .right => .RIGHT
  | .media_volume_mute => .MUTE
  | .media_volume_down => .VOLUME_DOWN
  | .media_volume_up => .VOLUME_UP
  | .media_play_pause => .PLAY_PAUSE
  | .media_next => .NEXT_TRACK
  | .media_previous => .PREV_TRACK

/-- The `from_char` entries of the key map built by
`PynputBackend._create_key_map`. -/
def pynput_char_map : List (Char × KeyCode) :=
  [('1', .ONE), ('2', .TWO), ('3', .THREE), ('4', .FOUR), ('5', .FIVE), ('6', .SIX),
   ('7', .SEVEN), ('8', .EIGHT), ('9', .NINE), ('0', .ZERO), ('a', .A), ('b', .B), ('c', .C),
   ('d', .D), ('e', .E), ('f', .F), ('g', .G), ('h', .H), ('i', .I), ('j', .J), ('k', .K),
   ('l', .L), ('m', .M), ('n', .N), ('o', .O), ('p', .P), ('q', .Q), ('r', .R), ('s', .S),
   ('t', .T), ('u', .U), ('v', .V), ('w', .W), ('x', .X), ('y', .Y), ('z', .Z), ('-', .MINUS),
   ('=', .EQUALS), ('[', .LEFT_BRACKET), (']', .RIGHT_BRACKET), (';', .SEMICOLON),
   (Char.ofNat 39, .QUOTE), (Char.ofNat 96, .BACKQUOTE), (Char.ofNat 92, .BACKSLASH),
   (',', .COMMA), ('.', .PERIOD), ('/', .SLASH)]

/-- The `from_vk` entries of the key map built by
`PynputBackend._create_key_map`. -/
def pynput_vk_map : List (Nat × KeyCode) :=
  [(96, .NUMPAD_0), (97, .NUMPAD_1), (98, .NUMPAD_2), (99, .NUMPAD_3), (100, .NUMPAD_4),
   (101, .NUMPAD_5), (102, .NUMPAD_6), (103, .NUMPAD_7), (104, .NUMPAD_8), (105, .NUMPAD_9),
   (107, .NUMPAD_ADD), (109, .NUMPAD_SUBTRACT), (106, .NUMPAD_MULTIPLY), (111, .NUMPAD_DIVIDE),
   (110, .NUMPAD_DECIMAL)]

/-- The mouse-button entries of the key map built by
`PynputBackend._create_key_map`: only left, right and middle are present. -/
def pynput_button_map (b : PynputMouseButton) : Option KeyCode :=
  match b with
  | .left => some .MOUSE_LEFT
  | .right => some .MOUSE_RIGHT
  | .middle => some .MOUSE_MIDDLE
  | .x1 => none
  | .x2 => none

/-- The full key map built by `PynputBackend._create_key_map`, as a lookup
function (Python dict `get`: `none` for an absent key). -/
def pynput_key_map (k : PynputMapKey) : Option KeyCode :=
  match k with
  | .special s => some (pynput_special_map s)
  | .fromChar c => pynput_char_map.lookup c
  | .fromVk v => pynput_vk_map.lookup v
  | .button b => pynput_button_map b

/-- A native key as it arrives in a pynput event callback: a `keyboard.Key`
member, a `keyboard.KeyCode` object carrying an optional printable character
and an optional virtual-key code, or a `mouse.Button` member. -/
inductive PynputEventKey where
  | special : PynputSpecialKey → PynputEventKey
  | kb : Option Char → Option Nat → PynputEventKey
  | button : PynputMouseButton → PynputEventKey
deriving DecidableEq

/-- Embedding of `PynputBackend._get_key_code`: a `keyboard.KeyCode` object with a truthy
`char` is looked up as `from_char(char.lower())`; otherwise a truthy `vk`
(non-zero) is looked up as `from_vk(vk)`; otherwise the raw object is looked
up directly — a char-less, vk-less `keyboard.KeyCode` equals no key of the
table, so that lookup misses.  `Key` members and mouse buttons are looked up
directly. -/
def get_key_code (key_map : PynputMapKey → Option KeyCode) :
    PynputEventKey → Option KeyCode
  | .special s => key_map (.special s)
  | .kb (some c) _ => key_map (.fromChar c.toLower)
  | .kb none (some vk) => if vk = 0 then none else key_map (.fromVk vk)
  | .kb none none => none
  | .button b => key_map (.button b)

/-- Embedding of `PynputBackend._translate_key_event`: resolve the key through the table
and tag the event kind from the press flag. -/
def translate_key_event (key_map : PynputMapKey → Option KeyCode)
    (native_event : PynputEventKey × Bool) : Option KeyCode × InputEvent :=
  (get_key_code key_map native_event.1,
   if native_event.2 then InputEvent.KEY_PRESS else InputEvent.KEY_RELEASE)

/-- Embedding of `PynputBackend._on_keyboard_press` (`pynput_backend.py` lines 81-89 of the
file, cited as 81-99 with the release handler): translate, and invoke the
sink once only when the translated key is not `None`.  The result is the list
of sink invocations this native event produces. -/
def on_keyboard_press (key_map : PynputMapKey → Option KeyCode)
    (key : PynputEventKey) : List (Option KeyCode × InputEvent) :=
  let translated_event := translate_key_event key_map (key, true)
  if translated_event.1.isSome then [translated_event] else []

/-- Embedding of `PynputBackend._on_keyboard_release`: as the press handler, with the press
flag false. -/
def on_keyboard_release (key_map : PynputMapKey → Option KeyCode)
    (key : PynputEventKey) : List (Option KeyCode × InputEvent) :=
  let translated_event := translate_key_event key_map (key, false)
  if translated_event.1.isSome then [translated_event] else []

/-- Embedding of `PynputBackend._on_mouse_click` (`pynput_backend.py` lines 101-108):
translate and invoke the sink once, with no check that the translated key is
not `None`. -/
def on_mouse_click (key_map : PynputMapKey → Option KeyCode)
    (button : PynputMouseButton) (pressed : Bool) :
    List (Option KeyCode × InputEvent) :=
  [translate_key_event key_map (.button button, pressed)]


/-! Helper lemmas shared by the claim theorems below. -/

theorem trigger_callbacks_all_ok {β : Type} (cbs : List (β × Bool))
    (h : ∀ cb ∈ cbs, cb.2 = false) :
    trigger_callbacks cbs = (cbs.map Prod.fst, false) := by
  induction cbs with
  | nil => rfl
  | cons hd tl ih =>
    obtain ⟨cb, raises⟩ := hd
    have h1 : raises = false := h (cb, raises) (List.mem_cons_self _ _)
    subst h1
    simp [trigger_callbacks, ih fun c hc => h c (List.mem_cons_of_mem _ hc)]

theorem trigger_callbacks_first_raise {β : Type} (pre : List (β × Bool)) (cb : β)
    (rest : List (β × Bool)) (h : ∀ c ∈ pre, c.2 = false) :
    trigger_callbacks (pre ++ (cb, true) :: rest) = (pre.map Prod.fst ++ [cb], true) := by
  induction pre with
  | nil => simp [trigger_callbacks]
  | cons hd tl ih =>
    obtain ⟨c0, r0⟩ := hd
    have h1 : r0 = false := h (c0, r0) (List.mem_cons_self _ _)
    subst h1
    simp [trigger_callbacks, ih fun c hc => h c (List.mem_cons_of_mem _ hc)]

theorem KeyChord.update_keys {α : Type} [DecidableEq α] (c : KeyChord α) (k : α)
    (e : InputEvent) : ((c.update k e).1).keys = c.keys := by
  cases e <;> rfl

theorem KeyChord.apply_events_keys {α : Type} [DecidableEq α] (c : KeyChord α)
    (events : List (α × InputEvent)) : (c.apply_events events).keys = c.keys := by
  induction events generalizing c with
  | nil => rfl
  | cons e rest ih =>
    rw [KeyChord.apply_events, List.foldl_cons]
    exact (ih _).trans (KeyChord.update_keys c e.1 e.2)

/-! Claim theorems. -/

/-- The chord state reached by a specification requiring only the single key
`A` after pressing `A` and then the extra key `B`. -/
def chord_a_then_b : KeyChord KeyCode :=
  KeyChord.apply_events (KeyChord.init {ChordKey.single KeyCode.A})
    [(KeyCode.A, InputEvent.KEY_PRESS), (KeyCode.B, InputEvent.KEY_PRESS)]

/-- C2 counterexample: with the chord specification requiring only the single
key `A`, after press(A), press(B) every listed key is in the pressed-key set,
yet `is_active` reports Inactive — the claimed "Active iff every listed key is
pressed" equivalence fails because `is_active` also requires the pressed-key
count to equal the specification size. -/
theorem chord_all_pressed_not_active_cex :
    (∀ e ∈ chord_a_then_b.keys, ChordKey.satisfied chord_a_then_b.pressed_keys e) ∧
    chord_a_then_b.is_active = false := by
  constructor
  · decide
  · decide

/-- C2 (amended): for every chord specification with only single-key elements
and every press/release sequence, the matcher reports Active iff the
pressed-key set is exactly the set of listed keys — every listed key pressed
and no extra key pressed — regardless of the order in which the events
arrived. -/
theorem chord_active_iff_exact_pressed_set {α : Type} [DecidableEq α]
    (S : Finset α) (events : List (α × InputEvent)) :
    (KeyChord.apply_events (KeyChord.init (S.image ChordKey.single)) events).is_active = true ↔
    (KeyChord.apply_events (KeyChord.init (S.image ChordKey.single)) events).pressed_keys = S := by
  have hinj : Function.Injective (ChordKey.single : α → ChordKey α) := by
    intro a b h
    cases h
    rfl
  have hkeys : (KeyChord.apply_events (KeyChord.init (S.image ChordKey.single)) events).keys =
      S.image ChordKey.single :=
    KeyChord.apply_events_keys (KeyChord.init (S.image ChordKey.single)) events
  rw [KeyChord.is_active, hkeys, decide_eq_true_eq]
  have hcard : (S.image ChordKey.single).card = S.card := Finset.card_image_of_injective S hinj
  constructor
  · rintro ⟨hall, hc⟩
    have hsub : S ⊆ (KeyChord.apply_events (KeyChord.init (S.image ChordKey.single))
        events).pressed_keys := by
      intro k hk
      exact hall (ChordKey.single k) (Finset.mem_image_of_mem _ hk)
    exact (Finset.eq_of_subset_of_card_le hsub (by rw [hc, hcard])).symm
  · intro hP
    refine ⟨?_, by rw [hP, hcard]⟩
    intro e he
    obtain ⟨k, hk, rfl⟩ := Finset.mem_image.mp he
    rw [hP]
    exact hk

/-- A listener whose chord requires the single key `A`, with nothing pressed,
one activate callback and one deactivate callback, none raising. -/
def edge_listener : KeyListener KeyCode Nat :=
  { backends := [BackendClass.pynput], active_backend := some BackendClass.pynput,
    key_chord := some (KeyChord.init {ChordKey.single KeyCode.A}),
    on_activate_callbacks := [(1, false)], on_deactivate_callbacks := [(2, false)] }

/-- C1: for every delivered normalized event, dispatch is edge-triggered: with
`was_active` the activity before the update and `is_active` after, the
registered `on_activate` callbacks are invoked, in registration order, exactly
when `was_active = false` and `is_active = true`; the `on_deactivate`
callbacks, in registration order, exactly when `was_active = true` and
`is_active = false`; and nothing is invoked otherwise.  (Callbacks are assumed
not to raise; a raising callback is the subject of C5.) -/
theorem key_listener_edge_triggered_dispatch {α β : Type} [DecidableEq α]
    (l : KeyListener α β) (chord : KeyChord α) (b : BackendClass) (k : α) (e : InputEvent)
    (hc : l.key_chord = some chord) (hb : l.active_backend = some b)
    (ha : ∀ cb ∈ l.on_activate_callbacks, cb.2 = false)
    (hd : ∀ cb ∈ l.on_deactivate_callbacks, cb.2 = false) :
    (l.on_input_event (k, e)).2.1 =
      if chord.is_active = false ∧ (chord.update k e).2 = true then
        l.on_activate_callbacks.map Prod.fst
      else if chord.is_active = true ∧ (chord.update k e).2 = false then
        l.on_deactivate_callbacks.map Prod.fst
      else [] := by
  cases hwa : chord.is_active <;> cases hpost : (chord.update k e).2 <;>
    simp [KeyListener.on_input_event, hc, hb, hwa, hpost,
      trigger_callbacks_all_ok _ ha, trigger_callbacks_all_ok _ hd]

/-- C1 witness: the edge-trigger theorem applied to a concrete listener and a
concrete press event. -/
theorem key_listener_edge_triggered_dispatch_witness :
    (edge_listener.on_input_event (KeyCode.A, InputEvent.KEY_PRESS)).2.1 =
      if (KeyChord.init ({ChordKey.single KeyCode.A} : Finset (ChordKey KeyCode))).is_active
            = false ∧
          ((KeyChord.init ({ChordKey.single KeyCode.A} : Finset (ChordKey KeyCode))).update
            KeyCode.A InputEvent.KEY_PRESS).2 = true then
        edge_listener.on_activate_callbacks.map Prod.fst
      else if (KeyChord.init ({ChordKey.single KeyCode.A} : Finset (ChordKey KeyCode))).is_active
            = true ∧
          ((KeyChord.init ({ChordKey.single KeyCode.A} : Finset (ChordKey KeyCode))).update
            KeyCode.A InputEvent.KEY_PRESS).2 = false then
        edge_listener.on_deactivate_callbacks.map Prod.fst
      else [] :=
  key_listener_edge_triggered_dispatch edge_listener
    (KeyChord.init {ChordKey.single KeyCode.A}) BackendClass.pynput KeyCode.A
    InputEvent.KEY_PRESS rfl rfl (by decide) (by decide)

/-- A listener whose chord requires the single key `A` and whose pressed-key
set already contains `A` (so the chord is Active). -/
def repeat_listener : KeyListener KeyCode Nat :=
  { backends := [BackendClass.pynput], active_backend := some BackendClass.pynput,
    key_chord := some ⟨{ChordKey.single KeyCode.A}, {KeyCode.A}⟩,
    on_activate_callbacks := [(1, false)], on_deactivate_callbacks := [(2, false)] }

/-- C7: while the chord is Active, a further KEY_PRESS of a key already in the
pressed-key set (key-repeat) leaves the pressed-key set and the Active state
unchanged, and the listener fires no callback for it. -/
theorem key_repeat_no_refire {α β : Type} [DecidableEq α]
    (l : KeyListener α β) (chord : KeyChord α) (b : BackendClass) (k : α)
    (hc : l.key_chord = some chord) (hb : l.active_backend = some b)
    (hactive : chord.is_active = true) (hk : k ∈ chord.pressed_keys) :
    chord.update k InputEvent.KEY_PRESS = (chord, true) ∧
    l.on_input_event (k, InputEvent.KEY_PRESS) = (l, [], false) := by
  have hchord : ({ chord with pressed_keys := insert k chord.pressed_keys } : KeyChord α)
      = chord := by
    obtain ⟨keys, pressed⟩ := chord
    simp only [KeyChord.mk.injEq, true_and, and_true]
    exact Finset.insert_eq_self.mpr hk
  have hupd : chord.update k InputEvent.KEY_PRESS = (chord, true) := by
    rw [KeyChord.update]
    simp only [hchord, hactive]
  refine ⟨hupd, ?_⟩
  obtain ⟨bs, ab, kc, oa, od⟩ := l
  simp only at hc hb
  subst hc
  subst hb
  simp [KeyListener.on_input_event, hupd, hactive]

/-- C7 witness: the key-repeat theorem applied to a concrete Active listener
re-pressing the already-pressed key `A`. -/
theorem key_repeat_no_refire_witness :
    (⟨{ChordKey.single KeyCode.A}, {KeyCode.A}⟩ : KeyChord KeyCode).update KeyCode.A
      InputEvent.KEY_PRESS = (⟨{ChordKey.single KeyCode.A}, {KeyCode.A}⟩, true) ∧
    repeat_listener.on_input_event (KeyCode.A, InputEvent.KEY_PRESS) =
      (repeat_listener, [], false) :=
  key_repeat_no_refire repeat_listener ⟨{ChordKey.single KeyCode.A}, {KeyCode.A}⟩
    BackendClass.pynput KeyCode.A rfl rfl (by decide) (by decide)

/-- A chord requiring a single equivalence class, either Ctrl, with only the
left member pressed. -/
def chord_one_ctrl : KeyChord KeyCode :=
  ⟨{ChordKey.cls {KeyCode.CTRL_LEFT, KeyCode.CTRL_RIGHT}}, {KeyCode.CTRL_LEFT}⟩

/-- The same chord with both members of the class pressed. -/
def chord_both_ctrl : KeyChord KeyCode :=
  ⟨{ChordKey.cls {KeyCode.CTRL_LEFT, KeyCode.CTRL_RIGHT}},
   {KeyCode.CTRL_LEFT, KeyCode.CTRL_RIGHT}⟩

/-- C4 counterexample: for the chord "either Ctrl", pressing exactly one class
member yields Active but pressing both members yields Inactive — so the
matcher result with both members pressed does not equal the result with
exactly one member pressed, refuting the claimed equivalence. -/
theorem chord_class_both_members_cex :
    chord_one_ctrl.is_active = true ∧ chord_both_ctrl.is_active = false := by
  constructor
  · decide
  · decide

/-- C4 (amended): the per-element contribution of an equivalence class to the
activity predicate holds iff at least one class member is in the pressed-key
set; but because `is_active` additionally requires the pressed-key count to
equal the specification size, pressing both members of a class is not
equivalent to pressing one: if the chord is Active and a further class member
not yet pressed is added, the chord becomes Inactive. -/
theorem chord_class_any_member_strict_card {α : Type} [DecidableEq α]
    (keys : Finset (ChordKey α)) (P s : Finset α) (k2 : α)
    (hcls : ChordKey.cls s ∈ keys) (hk2s : k2 ∈ s) (hk2P : k2 ∉ P)
    (hactive : (⟨keys, P⟩ : KeyChord α).is_active = true) :
    (ChordKey.satisfied P (ChordKey.cls s) ↔ ∃ k ∈ s, k ∈ P) ∧
    (⟨keys, insert k2 P⟩ : KeyChord α).is_active = false := by
  refine ⟨Iff.rfl, ?_⟩
  rw [KeyChord.is_active, decide_eq_true_eq] at hactive
  obtain ⟨-, hcard⟩ := hactive
  rw [KeyChord.is_active, decide_eq_false_iff_not]
  rintro ⟨-, hcard2⟩
  rw [Finset.card_insert_of_not_mem hk2P] at hcard2
  simp only at hcard hcard2
  omega

/-- C4 witness: the amended theorem applied to the "either Ctrl" chord with
only the left member pressed, adding the right member. -/
theorem chord_class_any_member_strict_card_witness :
    (ChordKey.satisfied ({KeyCode.CTRL_LEFT} : Finset KeyCode)
        (ChordKey.cls {KeyCode.CTRL_LEFT, KeyCode.CTRL_RIGHT}) ↔
      ∃ k ∈ ({KeyCode.CTRL_LEFT, KeyCode.CTRL_RIGHT} : Finset KeyCode),
        k ∈ ({KeyCode.CTRL_LEFT} : Finset KeyCode)) ∧
    (⟨{ChordKey.cls {KeyCode.CTRL_LEFT, KeyCode.CTRL_RIGHT}},
        insert KeyCode.CTRL_RIGHT {KeyCode.CTRL_LEFT}⟩ : KeyChord KeyCode).is_active = false :=
  chord_class_any_member_strict_card
    {ChordKey.cls {KeyCode.CTRL_LEFT, KeyCode.CTRL_RIGHT}}
    {KeyCode.CTRL_LEFT} {KeyCode.CTRL_LEFT, KeyCode.CTRL_RIGHT} KeyCode.CTRL_RIGHT
    (by decide) (by decide) (by decide) (by decide)

/-- A listener about to activate, whose first `on_activate` callback raises
and whose second does not. -/
def raising_listener : KeyListener KeyCode Nat :=
  { backends := [BackendClass.pynput], active_backend := some BackendClass.pynput,
    key_chord := some (KeyChord.init {ChordKey.single KeyCode.A}),
    on_activate_callbacks := [(1, true), (2, false)], on_deactivate_callbacks := [] }

/-- C5 counterexample: on the activating press, callback 1 raises; the
exception is caught only by the `except` of `on_input_event`, so callback 2 —
registered after it — is never invoked for that event, refuting the claim
that a raising callback does not prevent the invocation of the remaining
registered callbacks. -/
theorem callback_exception_skips_rest_cex :
    (raising_listener.on_input_event (KeyCode.A, InputEvent.KEY_PRESS)).2 = ([1], true) := by
  decide

/-- C5 (amended): an exception raised by a registered callback is caught and
logged at the event level (by the `try/except` of `on_input_event`, there
being none in `_trigger_callbacks`): the callbacks registered after the
raising one are not invoked for that event, but the matcher state update is
preserved, so future events are processed normally. -/
theorem callback_exception_event_level {α β : Type} [DecidableEq α]
    (l : KeyListener α β) (chord : KeyChord α) (b : BackendClass) (k : α) (e : InputEvent)
    (pre : List (β × Bool)) (cb : β) (rest : List (β × Bool))
    (hc : l.key_chord = some chord) (hb : l.active_backend = some b)
    (hcbs : l.on_activate_callbacks = pre ++ (cb, true) :: rest)
    (hpre : ∀ c ∈ pre, c.2 = false)
    (hwa : chord.is_active = false) (hpost : (chord.update k e).2 = true) :
    l.on_input_event (k, e) =
      ({ l with key_chord := some (chord.update k e).1 },
       pre.map Prod.fst ++ [cb], true) := by
  obtain ⟨bs, ab, kc, oa, od⟩ := l
  simp only at hc hb hcbs
  subst hc
  subst hb
  subst hcbs
  simp [KeyListener.on_input_event, hwa, hpost, trigger_callbacks_first_raise pre cb rest hpre]

/-- C5 witness: the amended theorem applied to the concrete raising listener,
showing the event yields invoked callbacks `[1]`, a caught exception, and the
updated chord state. -/
theorem callback_exception_event_level_witness :
    raising_listener.on_input_event (KeyCode.A, InputEvent.KEY_PRESS) =
      ({ raising_listener with
          key_chord := some ((KeyChord.init {ChordKey.single KeyCode.A}).update KeyCode.A InputEvent.KEY_PRESS).1 },
       [1], true) :=
  callback_exception_event_level raising_listener
    (KeyChord.init {ChordKey.single KeyCode.A}) BackendClass.pynput KeyCode.A
    InputEvent.KEY_PRESS [] 1 [(2, false)] rfl rfl rfl (by decide) (by decide) (by decide)

/-- A listener with the pynput backend active and the key `A` physically held
(present in the pressed-key set), whose registry also has the evdev
backend. -/
def held_key_listener : KeyListener KeyCode Nat :=
  { backends := [BackendClass.evdev, BackendClass.pynput],
    active_backend := some BackendClass.pynput,
    key_chord := some ⟨{ChordKey.single KeyCode.A}, {KeyCode.A}⟩,
    on_activate_callbacks := [], on_deactivate_callbacks := [] }

/-- Whether a key currently counts as pressed for the listener: membership in
the chord matcher pressed-key set. -/
def key_counts_as_pressed (l : KeyListener KeyCode Nat) (k : KeyCode) : Bool :=
  match l.key_chord with
  | some c => decide (k ∈ c.pressed_keys)
  | none => false

/-- C3 counterexample: the key `A` counts as pressed before a
`set_active_backend` switch to evdev, the switch succeeds, and `A` still
counts as pressed immediately after — refuting the claim that switching the
active backend clears the pressed-key set. -/
theorem backend_switch_keeps_pressed_cex :
    key_counts_as_pressed held_key_listener KeyCode.A = true ∧
    held_key_listener.set_active_backend BackendClass.evdev =
      Except.ok { held_key_listener with active_backend := some BackendClass.evdev } ∧
    key_counts_as_pressed
      { held_key_listener with active_backend := some BackendClass.evdev } KeyCode.A = true := by
  refine ⟨by decide, rfl, by decide⟩

/-- C3 (amended): switching the active backend — directly via
`set_active_backend` or via `update_backend` — leaves the chord matcher
untouched: every key in the pressed-key set before the switch is still in it
after; the pressed-key set is reset only when the chord specification is
reloaded (`set_activation_keys` builds a fresh `KeyChord`). -/
theorem backend_switch_preserves_pressed_keys {α β : Type}
    (l : KeyListener α β) (cls : BackendClass) (preferred : String) :
    (∀ l2, l.set_active_backend cls = Except.ok l2 → l2.key_chord = l.key_chord) ∧
    (∀ r, l.update_backend preferred = Except.ok r → r.1.key_chord = l.key_chord) ∧
    (∀ keys : Finset (ChordKey α),
      (l.set_activation_keys keys).key_chord = some (KeyChord.init keys)) := by
  refine ⟨?_, ?_, fun keys => rfl⟩
  · intro l2 h
    rw [KeyListener.set_active_backend] at h
    cases hf : l.backends.find? (fun b => b = cls) with
    | none => rw [hf] at h; cases h
    | some b =>
      rw [hf] at h
      cases h
      rfl
  · intro r h
    rw [KeyListener.update_backend, KeyListener.select_backend_from_config] at h
    by_cases hauto : preferred = "auto"
    · rw [if_pos hauto] at h
      cases hsel : l.select_active_backend with
      | error msg => rw [hsel] at h; cases h
      | ok l2 =>
        rw [hsel] at h
        cases h
        rw [KeyListener.select_active_backend] at hsel
        cases hbs : l.backends with
        | nil => rw [hbs] at hsel; cases hsel
        | cons b rest => rw [hbs] at hsel; cases hsel; rfl
    · rw [if_neg hauto] at h
      have hsel : ∀ l2, l.select_active_backend = Except.ok l2 → l2.key_chord = l.key_chord := by
        intro l2 hs
        rw [KeyListener.select_active_backend] at hs
        cases hbs : l.backends with
        | nil => rw [hbs] at hs; cases hs
        | cons b rest => rw [hbs] at hs; cases hs; rfl
      cases hbm : backend_map preferred with
      | none =>
        simp only [hbm] at h
        cases hs2 : l.select_active_backend with
        | error msg => rw [hs2] at h; cases h
        | ok l2 => rw [hs2] at h; cases h; exact hsel l2 hs2
      | some cls2 =>
        simp only [hbm] at h
        cases hsa : l.set_active_backend cls2 with
        | ok l2 =>
          rw [hsa] at h
          cases h
          rw [KeyListener.set_active_backend] at hsa
          cases hf : l.backends.find? (fun b => b = cls2) with
          | none => rw [hf] at hsa; cases hsa
          | some b => rw [hf] at hsa; cases hsa; rfl
        | error msg =>
          rw [hsa] at h
          cases hs2 : l.select_active_backend with
          | error msg2 => rw [hs2] at h; cases h
          | ok l2 => rw [hs2] at h; cases h; exact hsel l2 hs2

/-- C3 witness: the preservation theorem applied to the concrete listener with
`A` held, switching to the evdev backend. -/
theorem backend_switch_preserves_pressed_keys_witness :
    ({ held_key_listener with active_backend := some BackendClass.evdev } :
      KeyListener KeyCode Nat).key_chord = held_key_listener.key_chord :=
  (backend_switch_preserves_pressed_keys held_key_listener BackendClass.evdev "auto").1
    { held_key_listener with active_backend := some BackendClass.evdev } rfl

/-- C6: the mouse side button x1 is absent from the backend key map, yet
`_on_mouse_click` invokes the event sink once for it, with a `None` key —
while the keyboard handlers invoke the sink zero times for an equally
unmapped keyboard event.  This contradicts the claimed zero-invocation
behavior for every unresolvable native event: the code lacks the
`is not None` guard in `_on_mouse_click` that `_on_keyboard_press` and
`_on_keyboard_release` have. -/
theorem unmapped_mouse_button_invokes_sink :
    pynput_key_map (PynputMapKey.button PynputMouseButton.x1) = none ∧
    on_mouse_click pynput_key_map PynputMouseButton.x1 true =
      [(none, InputEvent.KEY_PRESS)] ∧
    on_keyboard_press pynput_key_map (PynputEventKey.kb none (some 999)) = [] := by
  refine ⟨rfl, rfl, ?_⟩
  decide

/-- C9: when the configured backend value does not name an available backend —
either it is an unrecognized variant (not in `backend_map`) or it names a
variant whose instance is not in the registry — and the registry is
non-empty, `select_backend_from_config` logs the fallback notice and applies
automatic selection: the first available backend in the priority order of
`initialize_backends` (evdev, the kernel-device backend, before pynput, the
user-space hook) becomes active, and no error is raised to the caller. -/
theorem backend_fallback_selects_first_available {α β : Type}
    (avail : BackendClass → Bool) (l : KeyListener α β) (preferred : String)
    (b : BackendClass) (rest : List BackendClass)
    (hreg : l.backends = initialize_backends avail)
    (hcons : l.backends = b :: rest)
    (hauto : preferred ≠ "auto")
    (hpref : backend_map preferred = none ∨
      ∃ cls, backend_map preferred = some cls ∧ cls ∉ l.backends) :
    l.select_backend_from_config preferred =
      Except.ok ({ l with active_backend := some b }, true) ∧
    (avail BackendClass.evdev = true → b = BackendClass.evdev) := by
  have hsel : l.select_active_backend = Except.ok { l with active_backend := some b } := by
    rw [KeyListener.select_active_backend, hcons]
  constructor
  · rw [KeyListener.select_backend_from_config, if_neg hauto]
    rcases hpref with hnone | ⟨cls, hcls, hnotin⟩
    · rw [hnone, hsel]
      rfl
    · simp only [hcls]
      have hfind : l.backends.find? (fun x => x = cls) = none := by
        rw [List.find?_eq_none]
        intro x hx
        simp only [decide_eq_true_eq]
        intro hxc
        exact hnotin (hxc ▸ hx)
      rw [KeyListener.set_active_backend, hfind, hsel]
      rfl
  · intro hev
    have : initialize_backends avail = b :: rest := hreg ▸ hcons
    rw [initialize_backends] at this
    simp only [List.filter, hev] at this
    exact (List.cons.injEq _ _ _ _ ▸ this).1.symm

/-- A freshly constructed listener whose availability probes both passed, so
the registry holds evdev then pynput, in priority order. -/
def fallback_listener : KeyListener KeyCode Nat :=
  { backends := [BackendClass.evdev, BackendClass.pynput], active_backend := none,
    key_chord := none, on_activate_callbacks := [], on_deactivate_callbacks := [] }

/-- C9 witness: the fallback theorem applied to the configured value
`"uinput"`, which names no known backend variant. -/
theorem backend_fallback_selects_first_available_witness :
    fallback_listener.select_backend_from_config "uinput" =
      Except.ok ({ fallback_listener with active_backend := some BackendClass.evdev }, true) ∧
    ((fun _ => true : BackendClass → Bool) BackendClass.evdev = true →
      BackendClass.evdev = BackendClass.evdev) :=
  backend_fallback_selects_first_available (fun _ => true) fallback_listener "uinput"
    BackendClass.evdev [BackendClass.pynput] (by decide) rfl (by decide)
    (Or.inl (by decide))

/-- What a single parser-loop token contributes to the chord specification:
the equivalence class of a modifier token, the single key of a token naming a
`KeyCode` member, or nothing. -/
def token_yields (t : String) (e : ChordKey KeyCode) : Prop :=
  match modifier_map.lookup t with
  | some s => e = ChordKey.cls s
  | none =>
    match KeyCode.ofName t with
    | some k => e = ChordKey.single k
    | none => False

/-- Whether the parser reports a token as unknown: neither a modifier name
nor a `KeyCode` member name. -/
def unknown_token (t : String) : Bool :=
  (modifier_map.lookup t).isNone && (KeyCode.ofName t).isNone

theorem parse_step_fst_mem (acc : Finset (ChordKey KeyCode) × List String)
    (t : String) (e : ChordKey KeyCode) :
    e ∈ (parse_step acc t).1 ↔ e ∈ acc.1 ∨ token_yields t e := by
  cases hm : modifier_map.lookup t with
  | some s => simp [parse_step, token_yields, hm, Finset.mem_insert, or_comm]
  | none =>
    cases ho : KeyCode.ofName t with
    | some k => simp [parse_step, token_yields, hm, ho, Finset.mem_insert, or_comm]
    | none => simp [parse_step, token_yields, hm, ho]

theorem parse_step_snd (acc : Finset (ChordKey KeyCode) × List String) (t : String) :
    (parse_step acc t).2 = acc.2 ++ (if unknown_token t then [t] else []) := by
  cases hm : modifier_map.lookup t with
  | some s => simp [parse_step, unknown_token, hm]
  | none =>
    cases ho : KeyCode.ofName t with
    | some k => simp [parse_step, unknown_token, hm, ho]
    | none => simp [parse_step, unknown_token, hm, ho]

theorem parse_foldl_fst_mem (ts : List String) :
    ∀ (acc : Finset (ChordKey KeyCode) × List String) (e : ChordKey KeyCode),
    e ∈ (ts.foldl parse_step acc).1 ↔ e ∈ acc.1 ∨ ∃ t ∈ ts, token_yields t e := by
  induction ts with
  | nil => simp
  | cons t ts ih =>
    intro acc e
    rw [List.foldl_cons, ih, parse_step_fst_mem]
    simp only [List.mem_cons]
    constructor
    · rintro ((he | hy) | ⟨t2, ht2, hy⟩)
      · exact Or.inl he
      · exact Or.inr ⟨t, Or.inl rfl, hy⟩
      · exact Or.inr ⟨t2, Or.inr ht2, hy⟩
    · rintro (he | ⟨t2, (rfl | ht2), hy⟩)
      · exact Or.inl (Or.inl he)
      · exact Or.inl (Or.inr hy)
      · exact Or.inr ⟨t2, ht2, hy⟩

theorem parse_foldl_snd (ts : List String) :
    ∀ acc : Finset (ChordKey KeyCode) × List String,
    (ts.foldl parse_step acc).2 = acc.2 ++ ts.filter unknown_token := by
  induction ts with
  | nil => simp
  | cons t ts ih =>
    intro acc
    rw [List.foldl_cons, ih, parse_step_snd, List.filter_cons]
    cases hu : unknown_token t <;> simp [hu]

theorem token_yields_cls (t : String) (c : Finset KeyCode) :
    token_yields t (ChordKey.cls c) ↔ modifier_map.lookup t = some c := by
  cases hm : modifier_map.lookup t with
  | some s =>
    simp only [token_yields, hm]
    constructor
    · rintro h
      cases h
      rfl
    · rintro h
      cases h
      rfl
  | none =>
    cases ho : KeyCode.ofName t with
    | some k => simp [token_yields, hm, ho]
    | none => simp [token_yields, hm, ho]

theorem token_yields_single (t : String) (k : KeyCode) :
    token_yields t (ChordKey.single k) ↔
      modifier_map.lookup t = none ∧ KeyCode.ofName t = some k := by
  cases hm : modifier_map.lookup t with
  | some s => simp [token_yields, hm]
  | none =>
    cases ho : KeyCode.ofName t with
    | some k2 =>
      simp only [token_yields, hm, ho, true_and]
      constructor
      · rintro h
        cases h
        rfl
      · rintro h
        cases h
        rfl
    | none => simp [token_yields, hm, ho]

/-- C8: for every specification string, the parser splits the uppercased
string on the plus delimiter and strips each token; a `ChordKey.cls` element
is in the result iff some token is a known modifier name mapping to that
left/right equivalence class; a `ChordKey.single` element is in the result
iff some non-modifier token names that `KeyCode` member; and the tokens
reported as unknown (and skipped, with no error raised — the function is
total) are exactly those that are neither. -/
theorem parse_key_combination_correct (s : String) :
    (∀ c : Finset KeyCode, ChordKey.cls c ∈ (parse_key_combination s).1 ↔
        ∃ t ∈ parse_tokens s, modifier_map.lookup t = some c) ∧
    (∀ k : KeyCode, ChordKey.single k ∈ (parse_key_combination s).1 ↔
        ∃ t ∈ parse_tokens s, modifier_map.lookup t = none ∧ KeyCode.ofName t = some k) ∧
    (parse_key_combination s).2 = (parse_tokens s).filter unknown_token := by
  refine ⟨?_, ?_, ?_⟩
  · intro c
    rw [parse_key_combination, parse_foldl_fst_mem]
    simp only [Finset.not_mem_empty, false_or]
    constructor
    · rintro ⟨t, ht, hy⟩
      exact ⟨t, ht, (token_yields_cls t c).mp hy⟩
    · rintro ⟨t, ht, hy⟩
      exact ⟨t, ht, (token_yields_cls t c).mpr hy⟩
  · intro k
    rw [parse_key_combination, parse_foldl_fst_mem]
    simp only [Finset.not_mem_empty, false_or]
    constructor
    · rintro ⟨t, ht, hy⟩
      exact ⟨t, ht, (token_yields_single t k).mp hy⟩
    · rintro ⟨t, ht, hy⟩
      exact ⟨t, ht, (token_yields_single t k).mpr hy⟩
  · rw [parse_key_combination, parse_foldl_snd]
    rfl

/-- A listener holding the empty chord specification, as produced when every
configuration token is unrecognized. -/
def empty_chord_listener : KeyListener KeyCode Nat :=
  { backends := [BackendClass.pynput], active_backend := some BackendClass.pynput,
    key_chord := some (KeyChord.init ∅),
    on_activate_callbacks := [(1, false)], on_deactivate_callbacks := [(2, false)] }

/-- C10: a `KeyChord` over the empty specification set — which
`parse_key_combination` produces when every token is unrecognized — is
active exactly when the pressed-key set is empty: it is Active immediately at
construction, and the first key press delivered to the listener dispatches
the `on_deactivate` callback registry, not `on_activate`. -/
theorem empty_chord_semantics {α β : Type} [DecidableEq α] :
    (∀ pressed : Finset α,
      (KeyChord.mk (∅ : Finset (ChordKey α)) pressed).is_active = true ↔ pressed = ∅) ∧
    (KeyChord.init (∅ : Finset (ChordKey α))).is_active = true ∧
    (∀ (l : KeyListener α β) (b : BackendClass) (k : α),
      l.key_chord = some (KeyChord.init ∅) → l.active_backend = some b →
      l.on_input_event (k, InputEvent.KEY_PRESS) =
        ({ l with key_chord := some ((KeyChord.init ∅).update k InputEvent.KEY_PRESS).1 },
         (trigger_callbacks l.on_deactivate_callbacks).1,
         (trigger_callbacks l.on_deactivate_callbacks).2)) ∧
    (∀ s : String,
      (∀ t ∈ parse_tokens s, modifier_map.lookup t = none ∧ KeyCode.ofName t = none) →
      (parse_key_combination s).1 = ∅) := by
  have hempty : ∀ pressed : Finset α,
      (KeyChord.mk (∅ : Finset (ChordKey α)) pressed).is_active = true ↔ pressed = ∅ := by
    intro pressed
    rw [KeyChord.is_active, decide_eq_true_eq]
    simp [Finset.card_eq_zero]
  have hinit : (KeyChord.init (∅ : Finset (ChordKey α))).is_active = true :=
    (hempty ∅).mpr rfl
  refine ⟨hempty, hinit, ?_, ?_⟩
  · intro l b k hc hb
    have hpost : ((KeyChord.init (∅ : Finset (ChordKey α))).update k InputEvent.KEY_PRESS).2
        = false := by
      rw [KeyChord.update]
      simp only []
      rw [KeyChord.is_active, decide_eq_false_iff_not]
      rintro ⟨-, hcard⟩
      simp [KeyChord.init] at hcard
    obtain ⟨bs, ab, kc, oa, od⟩ := l
    simp only at hc hb
    subst hc
    subst hb
    simp [KeyListener.on_input_event, hinit, hpost]
  · intro s h
    rw [parse_key_combination]
    rw [Finset.eq_empty_iff_forall_not_mem]
    intro e he
    rw [parse_foldl_fst_mem] at he
    rcases he with he | ⟨t, ht, hy⟩
    · exact absurd he (Finset.not_mem_empty e)
    · rw [token_yields] at hy
      rw [(h t ht).1, (h t ht).2] at hy
      exact hy

/-- C10 witness: the empty-chord theorem applied to a concrete listener and
the all-unknown specification string. -/
theorem empty_chord_semantics_witness :
    ((KeyChord.mk (∅ : Finset (ChordKey KeyCode)) (∅ : Finset KeyCode)).is_active = true ↔
      (∅ : Finset KeyCode) = ∅) ∧
    empty_chord_listener.on_input_event (KeyCode.A, InputEvent.KEY_PRESS) =
      ({ empty_chord_listener with
          key_chord := some ((KeyChord.init ∅).update KeyCode.A InputEvent.KEY_PRESS).1 },
       (trigger_callbacks empty_chord_listener.on_deactivate_callbacks).1,
       (trigger_callbacks empty_chord_listener.on_deactivate_callbacks).2) ∧
    (parse_key_combination "FOO+BAR").1 = ∅ :=
  ⟨(@empty_chord_semantics KeyCode Nat _).1 ∅,
   (@empty_chord_semantics KeyCode Nat _).2.2.1 empty_chord_listener BackendClass.pynput KeyCode.A rfl rfl,
   (@empty_chord_semantics KeyCode Nat _).2.2.2 "FOO+BAR" (by decide)⟩
